import Mathlib

/-!
Verification development for the aegis repository (smart-card / HID-OTP stacks).

The definitions below are shallow embeddings of the Go source:
* `scard` package: the APDU status-word taxonomy and response decoding of
  `Card.Transmit`, the command encoding of `Card.Transmit`, and the TLV
  search `doFindTLV` of `scard/data_object.go`.
* `hid` package: `calculateCRC`, `checkCRC`, `shouldSend`, `formatFrame`,
  `isSequenceUpdated`, and the frame engine `sendFrame` / `readFrame` /
  `SendAndReceive` of `hid/hid_linux.go`, driven over a scripted channel
  (a list of feature reports in place of the hidraw connection).

Bytes are modelled as `Nat` with explicit `% 256` (resp. `% 65536`) at the
points where the Go code performs a `byte` (resp. `uint16`) conversion.
A Go runtime panic from an out-of-range index or slice is modelled as
`Except.error ()`.
-/

set_option maxHeartbeats 1000000
set_option maxRecDepth 8192
set_option linter.unusedVariables false

deriving instance DecidableEq for Except

namespace Aegis

/-! ## Status taxonomy (scard, part_003 lines 270-364)

One constructor per error value declared in the source; `ErrRespTooShort` is
the transport-level "response too short" error of `Transmit`. -/

inductive ScErr where
  | ErrRespTooShort
  | ErrUnspecifiedWarning
  | ErrUnspecifiedWarningModified
  | ErrUnspecifiedError
  | ErrUnspecifiedErrorModified
  | ErrWrongLength
  | ErrUnsupportedFunction
  | ErrCommandNotAllowed
  | ErrWrongParamsNoInfo
  | ErrWrongParams
  | ErrUnsupportedInstruction
  | ErrUnsupportedClass
  | ErrNoDiag
  | ErrResponseMayBeCorrupted
  | ErrEOF
  | ErrSelectedFileDeactivated
  | ErrInvalidFileControlInfo
  | ErrSelectedFileInTermination
  | ErrNoSensorData
  | ErrFileFilledUp
  | ErrImmediateResponseRequired
  | ErrMemory
  | ErrLogicalChannelNotSupported
  | ErrSecureMessagingNotSupported
  | ErrExpectedLastCommand
  | ErrCommandChainingNotSupported
  | ErrCommandIncompatibleWithFile
  | ErrSecurityStatusNotSatisfied
  | ErrAuthenticationMethodBlocked
  | ErrReferenceDataNotUsable
  | ErrConditionsOfUseNotSatisfied
  | ErrCommandNotAllowedNoCurrentEF
  | ErrExpectedSecureMessaging
  | ErrIncorrectSecureMessagingDataObjects
  | ErrIncorrectData
  | ErrFunctionNotSupported
  | ErrFileOrAppNotFound
  | ErrRecordNotFound
  | ErrNoSpace
  | ErrInvalidNcWithTLV
  | ErrIncorrectParams
  | ErrInvalidNcWithParams
  | ErrReferenceNotFound
  | ErrFileAlreadyExists
  | ErrNameAlreadyExists
  deriving DecidableEq

/-- The `errorCodes` map of part_003 lines 318-364, as an association list
from a status-word pair to the Go `error` value (`none` models Go `nil`,
which is the explicit value of the `0x9000` entry). -/
def errorCodes : List ((Nat × Nat) × Option ScErr) := [
  ((0x90, 0x00), none),
  ((0x62, 0x00), some .ErrUnspecifiedWarning),
  ((0x63, 0x00), some .ErrUnspecifiedWarningModified),
  ((0x64, 0x00), some .ErrUnspecifiedError),
  ((0x65, 0x00), some .ErrUnspecifiedErrorModified),
  ((0x67, 0x00), some .ErrWrongLength),
  ((0x68, 0x00), some .ErrUnsupportedFunction),
  ((0x69, 0x00), some .ErrCommandNotAllowed),
  ((0x6A, 0x00), some .ErrWrongParamsNoInfo),
  ((0x6B, 0x00), some .ErrWrongParams),
  ((0x6D, 0x00), some .ErrUnsupportedInstruction),
  ((0x6E, 0x00), some .ErrUnsupportedClass),
  ((0x6F, 0x00), some .ErrNoDiag),
  ((0x62, 0x81), some .ErrResponseMayBeCorrupted),
  ((0x62, 0x82), some .ErrEOF),
  ((0x62, 0x83), some .ErrSelectedFileDeactivated),
  ((0x62, 0x84), some .ErrInvalidFileControlInfo),
  ((0x62, 0x85), some .ErrSelectedFileInTermination),
  ((0x62, 0x86), some .ErrNoSensorData),
  ((0x63, 0x81), some .ErrFileFilledUp),
  ((0x64, 0x01), some .ErrImmediateResponseRequired),
  ((0x65, 0x81), some .ErrMemory),
  ((0x68, 0x81), some .ErrLogicalChannelNotSupported),
  ((0x68, 0x82), some .ErrSecureMessagingNotSupported),
  ((0x68, 0x83), some .ErrExpectedLastCommand),
  ((0x68, 0x84), some .ErrCommandChainingNotSupported),
  ((0x69, 0x81), some .ErrCommandIncompatibleWithFile),
  ((0x69, 0x82), some .ErrSecurityStatusNotSatisfied),
  ((0x69, 0x83), some .ErrAuthenticationMethodBlocked),
  ((0x69, 0x84), some .ErrReferenceDataNotUsable),
  ((0x69, 0x85), some .ErrConditionsOfUseNotSatisfied),
  ((0x69, 0x86), some .ErrCommandNotAllowedNoCurrentEF),
  ((0x69, 0x87), some .ErrExpectedSecureMessaging),
  ((0x69, 0x88), some .ErrIncorrectSecureMessagingDataObjects),
  ((0x6A, 0x80), some .ErrIncorrectData),
  ((0x6A, 0x81), some .ErrFunctionNotSupported),
  ((0x6A, 0x82), some .ErrFileOrAppNotFound),
  ((0x6A, 0x83), some .ErrRecordNotFound),
  ((0x6A, 0x84), some .ErrNoSpace),
  ((0x6A, 0x85), some .ErrInvalidNcWithTLV),
  ((0x6A, 0x86), some .ErrIncorrectParams),
  ((0x6A, 0x87), some .ErrInvalidNcWithParams),
  ((0x6A, 0x88), some .ErrReferenceNotFound),
  ((0x6A, 0x89), some .ErrFileAlreadyExists),
  ((0x6A, 0x8A), some .ErrNameAlreadyExists)]

/-- Go map index `errorCodes[[2]byte{sw1, sw2}]`: a missing key yields the
zero value of `error`, i.e. `nil` (`none`), exactly like the `0x9000` entry. -/
def lookupErrorCode (sw1 sw2 : Nat) : Option ScErr :=
  match errorCodes.find? (fun e => e.1.1 == sw1 && e.1.2 == sw2) with
  | some e => e.2
  | none => none

/-- Response handling of `Card.Transmit` (part_003 lines 399-406), applied to
the byte string the resource-manager client returned: fewer than 2 bytes is
`ErrRespTooShort`; otherwise the last two bytes are looked up in `errorCodes`
and a non-`nil` error aborts, else the body without the trailing status word
is returned. -/
def transmitDecode (resp : List Nat) : Except ScErr (List Nat) :=
  if resp.length < 2 then .error .ErrRespTooShort
  else
    match lookupErrorCode (resp.getD (resp.length - 2) 0) (resp.getD (resp.length - 1) 0) with
    | some e => .error e
    | none => .ok (resp.take (resp.length - 2))

/-! ## APDU command encoding (scard, part_003 lines 258-268 and 366-394) -/

structure APDU where
  Cla : Nat
  Ins : Nat
  P1 : Nat
  P2 : Nat
  Data : List Nat
  Len : Nat
  Pib : Bool
  Elf : Bool

/-- Command construction of `Card.Transmit` (part_003 lines 367-394): four
header bytes; when `Data` is non-empty, the length `lc` (`len(Data)`, minus
one when `Pib`) is written either as `0x00` plus `uint16(lc)` big-endian
(`Elf`) or as the single byte `uint8(lc)`, followed by `Data`; finally the
expected-response-length byte `Len`. -/
def encodeAPDU (apdu : APDU) : List Nat :=
  [apdu.Cla, apdu.Ins, apdu.P1, apdu.P2] ++
    (if 0 < apdu.Data.length then
      (let lc := if apdu.Pib then apdu.Data.length - 1 else apdu.Data.length
       (if apdu.Elf then [0, lc % 65536 / 256, lc % 256] else [lc % 256]) ++ apdu.Data)
     else []) ++ [apdu.Len]

/-! ## TLV search (scard/data_object.go lines 99-179, `doFindTLV`)

The Go loop keeps an offset `o` and a remaining count `n` with the invariant
`o + n = len(data)` (every `o++`/`o += k` is paired with `n--`/`n -= k`);
the embedding keeps `o` and computes `n` as `data.length - o` at each use.
The helpers return how far `o` advanced instead of the new absolute offset.
A read `data[i]` with `i` out of range is a Go runtime panic, modelled as
`.error ()`. -/

/-- Lines 112-134: skip one `0x00`/`0xff` filler byte, read the tag
(one or two bytes), compute the composite bit (bit 5 of the first tag byte).
Returns `.ok none` for the source's `return nil` exits, else
`(composite, thisTag, k)` where the tag's last byte sits at offset `o + k`. -/
def doParseTag (data : List Nat) (o : Nat) :
    Except Unit (Option (Bool × Nat × Nat)) :=
  if data.length ≤ o then .error ()
  else
    let k := if data.getD o 0 = 0 ∨ data.getD o 0 = 0xff then 1 else 0
    if data.length ≤ o + k then .error ()
    else
      let t1 := data.getD (o + k) 0
      let composite := decide (t1 &&& 0x20 ≠ 0)
      if t1 &&& 0x1f = 0x1f then
        if data.length - (o + k + 1) < 2 then .ok none
        else if data.length ≤ o + k + 1 then .error ()
        else if data.getD (o + k + 1) 0 &&& 0x1f = 0x1f then .ok none
        else .ok (some (composite, 256 * t1 + (data.getD (o + k + 1) 0 &&& 0x7f), k + 1))
      else .ok (some (composite, t1, k))

/-- Lines 135-158: length decoding, `p` being the offset of the tag's last
byte. `tagLen = data[p+1]`; below `0x80` it is literal; `0x81` checks
`n != 0` (as written in the source) and otherwise reads `data[p+2]`, which
at that point is one past the end of the buffer; `0x82` takes two big-endian
bytes; anything else is `return nil`. Returns `(tagLen, extra)` with the
value starting at `p + 2 + extra`. -/
def doParseLen (data : List Nat) (p : Nat) :
    Except Unit (Option (Nat × Nat)) :=
  if data.length ≤ p + 1 then .error ()
  else
    let l := data.getD (p + 1) 0
    if l < 0x80 then .ok (some (l, 0))
    else if l = 0x81 then
      if data.length - (p + 2) ≠ 0 then .ok none
      else if data.length ≤ p + 2 then .error ()
      else .ok (some (data.getD (p + 2) 0, 1))
    else if l = 0x82 then
      if data.length - (p + 2) < 2 then .ok none
      else if data.length ≤ p + 3 then .error ()
      else .ok (some (256 * data.getD (p + 2) 0 + data.getD (p + 3) 0, 2))
    else .ok none

/-- The `for !tagFound` loop of `doFindTLV` (lines 107-178). After parsing a
record's tag and length, a composite record is searched recursively (from the
value onwards, `data[o:]`) when `nestLevel < 100`, and a non-empty recursive
result is returned; then the record's own tag is compared, a match returning
the value slice `data[o : o+tagLen]` (a panic when it runs past the buffer);
otherwise a record whose length exceeds the rest is `return nil`, else the
record is skipped. -/
def doFindTLVLoop (data : List Nat) (tag nestLevel o : Nat) :
    Except Unit (List Nat) :=
  if data.length - o < 2 then .ok []
  else
    match doParseTag data o with
    | .error () => .error ()
    | .ok none => .ok []
    | .ok (some (composite, thisTag, k1)) =>
      match doParseLen data (o + k1) with
      | .error () => .error ()
      | .ok none => .ok []
      | .ok (some (tagLen, k2)) =>
        match (if h : composite = true ∧ nestLevel < 100 then
                 doFindTLVLoop (data.drop (o + k1 + 2 + k2)) tag (nestLevel + 1) 0
               else .ok []) with
        | .error () => .error ()
        | .ok tmpData =>
          if 0 < tmpData.length then .ok tmpData
          else if thisTag = tag then
            if o + k1 + 2 + k2 + tagLen ≤ data.length then
              .ok ((data.drop (o + k1 + 2 + k2)).take tagLen)
            else .error ()
          else if data.length - (o + k1 + 2 + k2) < tagLen then .ok []
          else doFindTLVLoop data tag nestLevel (o + k1 + 2 + k2 + tagLen)
  termination_by (100 - nestLevel, data.length - o)
  decreasing_by
  · apply Prod.Lex.left
    omega
  · apply Prod.Lex.right'
    · omega
    · omega

/-- `doFindTLV(data, tag, nestLevel)`: the loop starting at `o = 0`.
`.ok []` is the `nil` ("not found") result, `.ok v` a found value `v`,
`.error ()` an out-of-range index or slice (Go runtime panic). -/
def doFindTLV (data : List Nat) (tag : Nat) (nestLevel : Nat) : Except Unit (List Nat) :=
  doFindTLVLoop data tag nestLevel 0

/-! ## HID frame engine (hid/hid_linux.go lines 315-631)

The hidraw connection is replaced by a scripted channel: a `Script` is the
list of 8-byte feature reports that successive `Receive()` calls deliver,
and each function returns its result together with the not-yet-consumed
script and the list of reports it passed to `Send`. Sleeps, keepalive
callbacks and context cancellation have no effect on the data flow modelled
here (the context is taken as never cancelled). -/

def FEATURE_RPT_SIZE : Nat := 8
def FEATURE_RPT_DATA_SIZE : Nat := FEATURE_RPT_SIZE - 1
def SLOT_DATA_SIZE : Nat := 64
def FRAME_SIZE : Nat := SLOT_DATA_SIZE + 6
def RESP_PENDING_FLAG : Nat := 0x40
def SLOT_WRITE_FLAG : Nat := 0x80
def RESP_TIMEOUT_WAIT_FLAG : Nat := 0x20
def SEQUENCE_MASK : Nat := 0x1F
def STATUS_OFFSET_PROG_SEQ : Nat := 0x4
def STATUS_OFFSET_TOUCH_LOW : Nat := 0x5
def CONFIG_SLOTS_PROGRAMMED_MASK : Nat := 0b00000011
def CRC_OK_RESIDUAL : Nat := 0xF0B8

/-- One iteration of the inner loop of `calculateCRC` (lines 391-397):
take the low bit, shift right, and xor the polynomial `0x8408` when the
low bit was set. -/
def crcRound (crc : Nat) : Nat :=
  if crc &&& 1 = 1 then (crc >>> 1) ^^^ 0x8408 else crc >>> 1

/-- `k` iterations of `crcRound`. -/
def crcRounds : Nat → Nat → Nat
  | 0, crc => crc
  | k + 1, crc => crcRounds k (crcRound crc)

/-- Per-byte step of `calculateCRC`: `crc ^= uint16(b)` then 8 rounds. -/
def crcByte (crc b : Nat) : Nat := crcRounds 8 (crc ^^^ b)

/-- `calculateCRC` (lines 387-400): fold over the data starting from
`0xFFFF`, and `return crc & 0xFFFF`. -/
def calculateCRC (data : List Nat) : Nat :=
  (data.foldl crcByte 0xFFFF) &&& 0xFFFF

/-- `checkCRC` (lines 402-404). -/
def checkCRC (data : List Nat) : Bool := calculateCRC data == CRC_OK_RESIDUAL

/-- `shouldSend` (lines 406-416): the first (`0`) and last (`9`) packets are
always sent, a middle packet only when it has a non-zero byte. -/
def shouldSend (packet : List Nat) (seq : Nat) : Bool :=
  if seq = 0 ∨ seq = 9 then true
  else packet.any (fun b => b != 0)

/-- `formatFrame` (lines 418-426): 64-byte payload, slot byte, the CRC of the
payload little-endian (`byte(crc)`, `byte(crc>>8)`), three zero bytes. -/
def formatFrame (slot : Nat) (payload : List Nat) : List Nat :=
  payload ++ [slot] ++ [calculateCRC payload % 256, (calculateCRC payload >>> 8) % 256] ++
    [0, 0, 0]

/-- `isSequenceUpdated` (lines 428-432); `prevSeq + 1` is byte addition, so
it is taken modulo 256. -/
def isSequenceUpdated (report : List Nat) (prevSeq : Nat) : Bool :=
  decide (report.getD STATUS_OFFSET_PROG_SEQ 0 = (prevSeq + 1) % 256) ||
    (decide (report.getD STATUS_OFFSET_PROG_SEQ 0 = 0) && decide (0 < prevSeq) &&
      decide (report.getD STATUS_OFFSET_TOUCH_LOW 0 &&& CONFIG_SLOTS_PROGRAMMED_MASK = 0))

abbrev Report := List Nat
abbrev Script := List Report

inductive HidErr where
  | channelClosed
  | badReportSize
  | readyTimeout
  | incompleteTransfer
  | touchTimeout
  | commandRejected
  | payloadTooLarge
  deriving DecidableEq

/-- `Protocol.receive` (lines 504-513) over the scripted channel: take the
next report; an exhausted script is a channel error, and a report that is
not exactly 8 bytes is the "incorrect feature report size" error. -/
def hidReceive (script : Script) : Except HidErr Report × Script :=
  match script with
  | [] => (.error .channelClosed, [])
  | r :: rest =>
    if r.length = FEATURE_RPT_SIZE then (.ok r, rest) else (.error .badReportSize, rest)

/-- `awaitReadyToWrite` (lines 515-527): up to 20 reads, returning as soon as
the write flag (bit 7 of the status byte) is clear, a timeout error after 20
attempts. -/
def awaitReadyToWrite : Nat → Script → Except HidErr Unit × Script
  | 0, script => (.error .readyTimeout, script)
  | i + 1, script =>
    match hidReceive script with
    | (.error e, rest) => (.error e, rest)
    | (.ok r, rest) =>
      if r.getD FEATURE_RPT_DATA_SIZE 0 &&& SLOT_WRITE_FLAG = 0 then (.ok (), rest)
      else awaitReadyToWrite i rest

/-- The chunking loop of `sendFrame` (lines 536-557): take the next 7 bytes
(zero-padded at the tail of the buffer), and when `shouldSend` allows it,
wait for readiness and send the chunk followed by the status byte
`byte(0x80 | seq)`; `seq` advances for every chunk, sent or skipped. -/
def sendChunks : List Nat → Nat → Script → List Report →
    Except HidErr Unit × Script × List Report
  | [], _, script, sent => (.ok (), script, sent)
  | b1 :: b2 :: b3 :: b4 :: b5 :: b6 :: b7 :: rest, seq, script, sent =>
    let chunk := [b1, b2, b3, b4, b5, b6, b7]
    if shouldSend chunk seq then
      match awaitReadyToWrite 20 script with
      | (.error e, script1) => (.error e, script1, sent)
      | (.ok _, script1) =>
        sendChunks rest (seq + 1) script1
          (sent ++ [chunk ++ [(SLOT_WRITE_FLAG ||| seq) % 256]])
    else sendChunks rest (seq + 1) script sent
  | buf, seq, script, sent =>
    let chunk := buf ++ List.replicate (FEATURE_RPT_DATA_SIZE - buf.length) 0
    if shouldSend chunk seq then
      match awaitReadyToWrite 20 script with
      | (.error e, script1) => (.error e, script1, sent)
      | (.ok _, script1) =>
        (.ok (), script1, sent ++ [chunk ++ [(SLOT_WRITE_FLAG ||| seq) % 256]])
    else (.ok (), script, sent)

/-- `sendFrame` (lines 529-558): read one status report to capture
`progSeq = r[4]`, then send the buffer in chunks. -/
def sendFrame (script : Script) (buf : List Nat) :
    Except HidErr Nat × Script × List Report :=
  match hidReceive script with
  | (.error e, rest) => (.error e, rest, [])
  | (.ok r, rest) =>
    match sendChunks buf 0 rest [] with
    | (.error e, script1, sent) => (.error e, script1, sent)
    | (.ok _, script1, sent) => (.ok (r.getD STATUS_OFFSET_PROG_SEQ 0), script1, sent)

/-- The dummy report of `resetState` (lines 619-622). -/
def resetReport : Report := [0, 0, 0, 0, 0, 0, 0, 0xFF]

/-- The read loop of `readFrame` (lines 560-617). A pending-flag report whose
5-bit sequence matches appends 7 payload bytes and advances; an out-of-turn
sequence `0` resets the transport state (the dummy report) and returns what
accumulated; a mismatching non-zero sequence is ignored. A zero status byte
with data already accumulated is an incomplete transfer; otherwise a
progressed `progSeq` returns the 6 status bytes `report[1:7]`, a previously
signalled touch wait is a timeout, and anything else "command rejected".
Any other status just notes the touch-wait bit and keeps polling. -/
def readFrameLoop : Script → Nat → List Nat → Nat → Bool →
    Except HidErr (List Nat) × Script × List Report
  | [], _, _, _, _ => (.error .channelClosed, [], [])
  | report :: rest, progSeq, response, seq, needsTouch =>
    if report.length ≠ FEATURE_RPT_SIZE then (.error .badReportSize, rest, [])
    else
      let status := report.getD FEATURE_RPT_DATA_SIZE 0
      if status &&& RESP_PENDING_FLAG ≠ 0 then
        if seq = status &&& SEQUENCE_MASK then
          readFrameLoop rest progSeq (response ++ report.take FEATURE_RPT_DATA_SIZE)
            (seq + 1) needsTouch
        else if status &&& SEQUENCE_MASK = 0 then
          (.ok response, rest, [resetReport])
        else readFrameLoop rest progSeq response seq needsTouch
      else if status = 0 then
        if response.length > 0 then (.error .incompleteTransfer, rest, [])
        else if isSequenceUpdated report progSeq then (.ok ((report.drop 1).take 6), rest, [])
        else if needsTouch then (.error .touchTimeout, rest, [])
        else (.error .commandRejected, rest, [])
      else
        readFrameLoop rest progSeq response seq
          (if status &&& RESP_TIMEOUT_WAIT_FLAG ≠ 0 then true else needsTouch)

/-- `readFrame` starts the loop with no accumulated response, sequence 0 and
no touch signalled. -/
def readFrame (script : Script) (progSeq : Nat) :
    Except HidErr (List Nat) × Script × List Report :=
  readFrameLoop script progSeq [] 0 false

/-- `Protocol.SendAndReceive` (lines 474-490): build the 64-byte payload,
reject data longer than 64 bytes before touching the channel, then
`sendFrame` the formatted frame and run the read loop. -/
def SendAndReceive (script : Script) (slot : Nat) (data : List Nat) :
    Except HidErr (List Nat) × Script × List Report :=
  let payload := data.take SLOT_DATA_SIZE ++ List.replicate (SLOT_DATA_SIZE - data.length) 0
  if data.length > SLOT_DATA_SIZE then (.error .payloadTooLarge, script, [])
  else
    match sendFrame script (formatFrame slot payload) with
    | (.error e, script1, sent) => (.error e, script1, sent)
    | (.ok progSeq, script1, sent) =>
      match readFrameLoop script1 progSeq [] 0 false with
      | (res, script2, sent2) => (res, script2, sent ++ sent2)

/-- An all-zero status report (ready to write, nothing pending). -/
def zeroReport : Report := [0, 0, 0, 0, 0, 0, 0, 0]

/-- Scenario 4 script: a response-pending report at sequence 0, then a second
response-pending report again at sequence 0, after the status reads that the
send path consumes. -/
def scenarioRespA : Report := [10, 11, 12, 13, 14, 15, 16, 0x40]

def scenarioRespB : Report := [9, 9, 9, 9, 9, 9, 9, 0x40]

def scenarioScript : Script := [zeroReport, zeroReport, zeroReport, scenarioRespA, scenarioRespB]

/-! ## Shared CRC lemmas -/

theorem crcRound_even (x : Nat) (h : x % 2 = 0) : crcRound x = x / 2 := by
  unfold crcRound
  rw [Nat.and_one_is_mod, if_neg (by omega), Nat.shiftRight_one]

theorem crcRounds_mul_pow (k h : Nat) : crcRounds k (2 ^ k * h) = h := by
  induction k generalizing h with
  | zero => simp [crcRounds]
  | succ n ih =>
    have he : 2 ^ (n + 1) * h = 2 * (2 ^ n * h) := by ring
    rw [crcRounds, he, crcRound_even _ (by omega), Nat.mul_div_cancel_left _ (by norm_num)]
    exact ih h

theorem xor_low_byte (c : Nat) : c ^^^ c % 256 = 2 ^ 8 * (c / 256) := by
  have h256 : (256 : Nat) = 2 ^ 8 := by norm_num
  have hmul : 2 ^ 8 * (c / 256) = (c >>> 8) <<< 8 := by
    rw [Nat.shiftLeft_eq, Nat.shiftRight_eq_div_pow, h256, Nat.mul_comm]
  rw [hmul]
  apply Nat.eq_of_testBit_eq
  intro i
  rw [Nat.testBit_xor, h256, Nat.testBit_mod_two_pow, Nat.testBit_shiftLeft,
    Nat.testBit_shiftRight]
  by_cases hi : i < 8
  · simp [hi, Nat.not_le.mpr hi]
  · have h8 : 8 + (i - 8) = i := by omega
    simp [hi, Nat.le_of_not_lt hi, h8, ge_iff_le]

theorem crcByte_low (c : Nat) : crcByte c (c % 256) = c / 256 := by
  unfold crcByte
  rw [xor_low_byte]
  exact crcRounds_mul_pow 8 (c / 256)

theorem crcRounds_zero (k : Nat) : crcRounds k 0 = 0 := by
  induction k with
  | zero => rfl
  | succ n ih => rw [crcRounds, crcRound_even 0 (by omega)]; exact ih

theorem crcByte_self (x : Nat) : crcByte x x = 0 := by
  unfold crcByte
  rw [Nat.xor_self]
  exact crcRounds_zero 8

theorem crcRound_lt (c : Nat) (h : c < 65536) : crcRound c < 65536 := by
  have h1 : c >>> 1 < 65536 := by
    rw [Nat.shiftRight_eq_div_pow]
    exact lt_of_le_of_lt (Nat.div_le_self _ _) h
  unfold crcRound
  split
  · have h2 : (65536 : Nat) = 2 ^ 16 := by norm_num
    rw [h2] at h1 ⊢
    exact Nat.xor_lt_two_pow h1 (by norm_num)
  · exact h1

theorem crcRounds_lt (k c : Nat) (h : c < 65536) : crcRounds k c < 65536 := by
  induction k generalizing c with
  | zero => exact h
  | succ n ih => rw [crcRounds]; exact ih _ (crcRound_lt _ h)

theorem crcByte_lt (c b : Nat) (hc : c < 65536) (hb : b < 256) : crcByte c b < 65536 := by
  unfold crcByte
  apply crcRounds_lt
  have h2 : (65536 : Nat) = 2 ^ 16 := by norm_num
  rw [h2] at hc ⊢
  exact Nat.xor_lt_two_pow hc (by omega)

theorem foldl_crc_lt (payload : List Nat) (init : Nat) (hi : init < 65536)
    (hb : ∀ x ∈ payload, x < 256) : payload.foldl crcByte init < 65536 := by
  induction payload generalizing init with
  | nil => exact hi
  | cons a l ih =>
    rw [List.foldl_cons]
    exact ih _ (crcByte_lt _ _ hi (hb a (by simp))) (fun x hx => hb x (by simp [hx]))

theorem land_ffff (x : Nat) (h : x < 65536) : x &&& 0xFFFF = x := by
  have h2 : (0xFFFF : Nat) = 2 ^ 16 - 1 := by norm_num
  rw [h2]
  apply Nat.and_pow_two_sub_one_of_lt_two_pow
  omega

/-! ## Claim theorems -/

/-- C1 counterexample: the status word `61 00` appears in no entry of the
`errorCodes` table, yet `Transmit` treats the response `[0x61, 0x00]` as a
success and returns the (empty) body: the claimed distinct
"unspecified/unmapped status" error does not exist. -/
theorem transmit_unknown_sw_counterexample :
    errorCodes.find? (fun e => e.1.1 == 0x61 && e.1.2 == 0x00) = none ∧
    transmitDecode [0x61, 0x00] = .ok [] := by
  decide

/-- C1 (amended): a response of at least two bytes whose trailing status word
matches no entry of `errorCodes` is treated as success: the Go map lookup
yields `nil`, and the body without the two trailing bytes is returned. -/
theorem transmit_unknown_sw_treated_as_success (resp : List Nat)
    (h2 : 2 ≤ resp.length)
    (hun : errorCodes.find? (fun e =>
      e.1.1 == resp.getD (resp.length - 2) 0 &&
      e.1.2 == resp.getD (resp.length - 1) 0) = none) :
    transmitDecode resp = .ok (resp.take (resp.length - 2)) := by
  unfold transmitDecode lookupErrorCode
  rw [if_neg (by omega), hun]

/-- C1 witness: the concrete response `[0xAB, 0x61, 0x00]` has an unmapped
status word and decodes to the successful body `[0xAB]`. -/
theorem transmit_unknown_sw_treated_as_success_witness :
    transmitDecode [0xAB, 0x61, 0x00] = .ok [0xAB] :=
  transmit_unknown_sw_treated_as_success [0xAB, 0x61, 0x00] (by decide) (by decide)

/-- C2: on the buffer `[0x01, 0x81]`, whose last byte is the `0x81` length
marker, `doFindTLV` reads `data[2]` one past the end of the buffer (a Go
runtime panic) instead of returning not-found. -/
theorem tlv_length81_truncated_buffer_panics :
    doFindTLV [0x01, 0x81] 0x01 0 = .error () := by
  rw [doFindTLV, doFindTLVLoop]
  decide

/-- C3: a well-formed entry with the `0x81` length form and its value byte
present, `[0x01, 0x81, 0x01, 0xAA]`, is not found: the source checks
`n != 0` where its own comment expects the opposite, so the branch returns
`nil` precisely when the length byte and value are present. -/
theorem tlv_length81_with_value_returns_nil :
    doFindTLV [0x01, 0x81, 0x01, 0xAA] 0x01 0 = .ok [] := by
  rw [doFindTLV, doFindTLVLoop]
  decide

/-- C4: for an 8-byte status report and a byte `prevSeq`,
`isSequenceUpdated` holds exactly when the programming-sequence byte
`report[4]` equals `prevSeq + 1` (byte arithmetic, so modulo 256), or when
it is `0` while `prevSeq > 0` and the configuration byte `report[5]` shows
no slots programmed. -/
theorem isSequenceUpdated_spec (report : List Nat) (prevSeq : Nat)
    (hlen : report.length = 8) (hp : prevSeq < 256) :
    isSequenceUpdated report prevSeq = true ↔
      (report.getD 4 0 = (prevSeq + 1) % 256 ∨
        (report.getD 4 0 = 0 ∧ 0 < prevSeq ∧ report.getD 5 0 &&& 3 = 0)) := by
  simp [isSequenceUpdated, STATUS_OFFSET_PROG_SEQ, STATUS_OFFSET_TOUCH_LOW,
    CONFIG_SLOTS_PROGRAMMED_MASK]
  tauto

/-- C4 witness at the wrap-around point `prevSeq = 255`: a report with
`report[4] = 0` and slots still programmed satisfies the first disjunct
(`(255 + 1) % 256 = 0`), and `isSequenceUpdated` returns true. -/
theorem isSequenceUpdated_spec_witness :
    ([0, 0, 0, 0, 0, 7, 0, 0] : List Nat).length = 8 ∧ (255 : Nat) < 256 ∧
    (isSequenceUpdated [0, 0, 0, 0, 0, 7, 0, 0] 255 = true ↔
      (([0, 0, 0, 0, 0, 7, 0, 0] : List Nat).getD 4 0 = (255 + 1) % 256 ∨
        (([0, 0, 0, 0, 0, 7, 0, 0] : List Nat).getD 4 0 = 0 ∧ 0 < 255 ∧
          ([0, 0, 0, 0, 0, 7, 0, 0] : List Nat).getD 5 0 &&& 3 = 0))) :=
  ⟨by decide, by decide, isSequenceUpdated_spec _ _ (by decide) (by decide)⟩

/-- C5: whenever the computed length `lc` fits the chosen form (one byte in
short form, two bytes with `Elf`), the encoded command is the four header
bytes, then for non-empty data the length field (`[0, hi, lo]` big-endian
with `Elf`, a single byte otherwise; `lc` is one less than the data length
when `Pib` is set) followed by the data, then the expected-response-length
byte; and the `SELECT`-style command `00 A4 04 00` with a 16-byte AID and
defaults encodes to `00 A4 04 00 10 <AID> 00`. -/
theorem transmit_encoding_spec (a : APDU)
    (hfit : (if a.Pib then a.Data.length - 1 else a.Data.length) ≤
      if a.Elf then 65535 else 255) :
    (encodeAPDU a =
      [a.Cla, a.Ins, a.P1, a.P2] ++
        (if 0 < a.Data.length then
          (if a.Elf then
            [0, (if a.Pib then a.Data.length - 1 else a.Data.length) / 256,
              (if a.Pib then a.Data.length - 1 else a.Data.length) % 256]
           else [if a.Pib then a.Data.length - 1 else a.Data.length]) ++ a.Data
         else []) ++ [a.Len]) ∧
    (∀ aid : List Nat, aid.length = 16 →
      encodeAPDU ⟨0x00, 0xA4, 0x04, 0x00, aid, 0, false, false⟩ =
        [0x00, 0xA4, 0x04, 0x00, 0x10] ++ aid ++ [0x00]) := by
  constructor
  · rcases a with ⟨cla, ins, p1, p2, data, len, pib, elf⟩
    simp only [encodeAPDU] at hfit ⊢
    cases pib <;> cases elf <;> simp_all <;>
      split_ifs <;> simp <;> omega
  · intro aid haid
    simp [encodeAPDU, haid]

/-- C5 witness: the scenario applied to a concrete 16-byte AID. -/
theorem transmit_encoding_spec_witness :
    encodeAPDU ⟨0x00, 0xA4, 0x04, 0x00,
      [0xA0, 0, 0, 3, 8, 0, 0, 0x10, 0, 1, 2, 3, 4, 5, 6, 7], 0, false, false⟩ =
    [0x00, 0xA4, 0x04, 0x00, 0x10] ++
      [0xA0, 0, 0, 3, 8, 0, 0, 0x10, 0, 1, 2, 3, 4, 5, 6, 7] ++ [0x00] :=
  (transmit_encoding_spec
    ⟨0x00, 0xA4, 0x04, 0x00,
      [0xA0, 0, 0, 3, 8, 0, 0, 0x10, 0, 1, 2, 3, 4, 5, 6, 7], 0, false, false⟩
    (by decide)).2 _ (by decide)

/-- C6 counterexample: for the payload `[0x01]`, recomputing the CRC over the
payload followed by its own CRC bytes (little-endian, as `formatFrame`
appends them) does not yield the residual `0xF0B8`: `checkCRC` is false. -/
theorem crc_residual_counterexample :
    checkCRC ([0x01] ++
      [calculateCRC [0x01] % 256, (calculateCRC [0x01] >>> 8) % 256]) = false := by
  decide

/-- C6 (amended): for every byte payload, the CRC over the payload followed
by its two little-endian CRC bytes is the residual `0` (not `0xF0B8`, which
is the residual of the complemented-CRC convention), so `checkCRC` over a
`formatFrame`-style buffer is false for every payload. -/
theorem crc_append_raw_crc_residual_zero (payload : List Nat)
    (hb : ∀ x ∈ payload, x < 256) :
    calculateCRC (payload ++
      [calculateCRC payload % 256, (calculateCRC payload >>> 8) % 256]) = 0 ∧
    checkCRC (payload ++
      [calculateCRC payload % 256, (calculateCRC payload >>> 8) % 256]) = false := by
  have hF : payload.foldl crcByte 0xFFFF < 65536 := foldl_crc_lt payload _ (by norm_num) hb
  have hcrc : calculateCRC payload = payload.foldl crcByte 0xFFFF := land_ffff _ hF
  have hhi2 : (payload.foldl crcByte 0xFFFF / 256) % 256 =
      payload.foldl crcByte 0xFFFF / 256 := by
    omega
  have hmain : calculateCRC (payload ++
      [calculateCRC payload % 256, (calculateCRC payload >>> 8) % 256]) = 0 := by
    rw [hcrc]
    have hshift : payload.foldl crcByte 0xFFFF >>> 8 = payload.foldl crcByte 0xFFFF / 256 := by
      rw [Nat.shiftRight_eq_div_pow]
    rw [hshift, hhi2]
    unfold calculateCRC
    rw [List.foldl_append]
    simp only [List.foldl_cons, List.foldl_nil]
    rw [crcByte_low, crcByte_self]
    rfl
  refine ⟨hmain, ?_⟩
  unfold checkCRC
  rw [hmain]
  rfl

/-- C6 witness: the amended residual property at the payload `[0xDE, 0xAD]`. -/
theorem crc_append_raw_crc_residual_zero_witness :
    calculateCRC ([0xDE, 0xAD] ++
      [calculateCRC [0xDE, 0xAD] % 256, (calculateCRC [0xDE, 0xAD] >>> 8) % 256]) = 0 ∧
    checkCRC ([0xDE, 0xAD] ++
      [calculateCRC [0xDE, 0xAD] % 256, (calculateCRC [0xDE, 0xAD] >>> 8) % 256]) = false :=
  crc_append_raw_crc_residual_zero [0xDE, 0xAD] (by decide)

/-- C7: in the read loop, a response-pending report whose 5-bit sequence is
`0` while the expected sequence is already positive ends the transfer: the
transport state is reset (the dummy report is sent) and exactly the
accumulated bytes are returned; and on the scripted channel that delivers a
pending report at sequence 0 and then a second pending report at sequence 0,
`SendAndReceive` returns exactly the first report's 7 payload bytes. -/
theorem readFrame_seq0_out_of_turn_ends_transfer :
    (∀ (report : Report) (rest : Script) (progSeq : Nat) (response : List Nat)
      (seq : Nat) (needsTouch : Bool),
      report.length = 8 →
      report.getD 7 0 &&& RESP_PENDING_FLAG ≠ 0 →
      report.getD 7 0 &&& SEQUENCE_MASK = 0 →
      0 < seq →
      readFrameLoop (report :: rest) progSeq response seq needsTouch =
        (.ok response, rest, [resetReport])) ∧
    (SendAndReceive scenarioScript 1 []).1 = .ok [10, 11, 12, 13, 14, 15, 16] := by
  constructor
  · intro report rest progSeq response seq needsTouch hlen hpend hseq0 hseq
    rw [readFrameLoop]
    rw [if_neg (by simp [hlen, FEATURE_RPT_SIZE])]
    norm_num [FEATURE_RPT_DATA_SIZE, FEATURE_RPT_SIZE] at hpend hseq0 ⊢
    rw [if_neg hpend, if_neg (by omega), if_pos hseq0]
  · decide

/-- C7 witness: a pending report with sequence bits 0 arriving while one
7-byte packet is already accumulated returns exactly that packet and resets
the transport state. -/
theorem readFrame_seq0_out_of_turn_ends_transfer_witness :
    readFrameLoop [[9, 9, 9, 9, 9, 9, 9, 0x40]] 0 [1, 2, 3, 4, 5, 6, 7] 1 false =
      (.ok [1, 2, 3, 4, 5, 6, 7], [], [resetReport]) :=
  readFrame_seq0_out_of_turn_ends_transfer.1 _ _ _ _ _ _
    (by decide) (by decide) (by decide) (by decide)

/-- C8: a constructed outer record whose value holds an inner entry with a
different single-byte tag: searching for the inner tag finds the inner value
(the recursive search of the composite runs before the outer tag is
compared), and at the recursion cap (`nestLevel = 100`) the nested search is
skipped — the record is passed over as if no match existed inside it and the
parse of the rest proceeds, here ending in not-found. -/
theorem tlv_nested_search_spec (b t : Nat) (lv : List Nat)
    (hb0 : b ≠ 0) (hbff : b ≠ 0xff)
    (hbc : b &&& 0x20 ≠ 0) (hbw : b &&& 0x1f ≠ 0x1f) (hbt : b ≠ t)
    (ht0 : t ≠ 0) (htff : t ≠ 0xff) (htc : t &&& 0x20 = 0) (htw : t &&& 0x1f ≠ 0x1f)
    (hlv : lv ≠ []) (hlen : lv.length ≤ 0x7D) :
    doFindTLV (b :: (2 + lv.length) :: t :: lv.length :: lv) t 0 = .ok lv ∧
    doFindTLV (b :: (2 + lv.length) :: t :: lv.length :: lv) t 100 = .ok [] := by
  have hpt : doParseTag (b :: (2 + lv.length) :: t :: lv.length :: lv) 0 =
      .ok (some (true, b, 0)) := by
    unfold doParseTag
    simp [hb0, hbff, hbw, hbc]
  have hpl : doParseLen (b :: (2 + lv.length) :: t :: lv.length :: lv) 0 =
      .ok (some (2 + lv.length, 0)) := by
    unfold doParseLen
    simp
    omega
  have hptI : doParseTag (t :: lv.length :: lv) 0 = .ok (some (false, t, 0)) := by
    unfold doParseTag
    simp [ht0, htff, htw, htc]
  have hplI : doParseLen (t :: lv.length :: lv) 0 = .ok (some (lv.length, 0)) := by
    unfold doParseLen
    simp
    omega
  have hg0 : ¬(lv.length + 1 + 1 < 2) := by omega
  have hsl : 2 + lv.length ≤ lv.length + 1 + 1 := by omega
  have hinner : doFindTLVLoop (t :: lv.length :: lv) t 1 0 = .ok lv := by
    rw [doFindTLVLoop]
    simp [hptI, hplI, hg0, hsl]
  have hg1 : ¬(lv.length + 1 + 1 + 1 + 1 < 2) := by omega
  have hpos : 0 < lv.length := List.length_pos.mpr hlv
  have hg2 : lv.length + 1 + 1 + 1 + 1 - (2 + (2 + lv.length)) < 2 := by omega
  constructor
  · rw [doFindTLV, doFindTLVLoop]
    simp [hpt, hpl, hinner, hlv, hg1, hpos]
  · rw [doFindTLV, doFindTLVLoop]
    simp [hpt, hpl, hbt, hg1]
    intro h
    rw [doFindTLVLoop]
    simp [hg2]

/-- C8 witness: outer constructed tag `0xE1` holding the inner entry
`41 01 AB`; searching tag `0x41` at depth 0 yields `[0xAB]`, at the cap it
is not found. -/
theorem tlv_nested_search_spec_witness :
    doFindTLV [0xE1, 0x03, 0x41, 0x01, 0xAB] 0x41 0 = .ok [0xAB] ∧
    doFindTLV [0xE1, 0x03, 0x41, 0x01, 0xAB] 0x41 100 = .ok [] :=
  tlv_nested_search_spec 0xE1 0x41 [0xAB] (by decide) (by decide) (by decide)
    (by decide) (by decide) (by decide) (by decide) (by decide) (by decide)
    (by decide) (by decide)

/-- C9: with extended length not requested and non-empty data whose computed
length exceeds 255, the single short-form length byte is `uint8(lc)`, the
computed length reduced modulo 256 — the encoder neither errors nor switches
to the extended form. -/
theorem transmit_short_form_truncates (a : APDU)
    (helf : a.Elf = false) (hdata : a.Data ≠ [])
    (hbig : 255 < (if a.Pib then a.Data.length - 1 else a.Data.length)) :
    encodeAPDU a =
      [a.Cla, a.Ins, a.P1, a.P2,
        (if a.Pib then a.Data.length - 1 else a.Data.length) % 256] ++
        a.Data ++ [a.Len] := by
  have hpos : 0 < a.Data.length := List.length_pos.mpr hdata
  simp [encodeAPDU, helf, hpos]

/-- C9 witness: 257 data bytes, no padding indicator: the length byte is
`257 % 256 = 1`. -/
theorem transmit_short_form_truncates_witness :
    encodeAPDU ⟨1, 2, 3, 4, List.replicate 257 5, 0, false, false⟩ =
      [1, 2, 3, 4, 1] ++ List.replicate 257 5 ++ [0] := by
  rw [transmit_short_form_truncates ⟨1, 2, 3, 4, List.replicate 257 5, 0, false, false⟩
    rfl (by simp) (by simp)]
  norm_num

/-- C10: a `SendAndReceive` whose data is longer than 64 bytes fails with the
"payload too large" error before any channel interaction: the script is
returned untouched and nothing is sent. -/
theorem sendAndReceive_payload_too_large (script : Script) (slot : Nat)
    (data : List Nat) (h : SLOT_DATA_SIZE < data.length) :
    SendAndReceive script slot data = (.error .payloadTooLarge, script, []) := by
  unfold SendAndReceive
  rw [if_pos h]

/-- C10 witness: 65 data bytes against an arbitrary concrete script. -/
theorem sendAndReceive_payload_too_large_witness :
    SendAndReceive [[0, 0, 0, 0, 0, 0, 0, 0]] 1 (List.replicate 65 0) =
      (.error .payloadTooLarge, [[0, 0, 0, 0, 0, 0, 0, 0]], []) :=
  sendAndReceive_payload_too_large _ _ _ (by simp [SLOT_DATA_SIZE])

end Aegis
